import Mathlib

/- Verification of the promptOS keystroke-trigger core.

   The development shallowly embeds the three Rust modules that the claims
   concern:
     - src-tauri/src/keystroke_monitor.rs  (event tap callback, start and stop)
     - src-tauri/src/text_field_detector.rs (focus check, cursor query, bounds)
     - src-tauri/src/text_injector.rs       (paste-based injection with
       clipboard snapshot and delayed restore)

   Platform calls (Accessibility API, AppKit classes, CGEvent creation,
   pasteboard operations) are modelled by explicit environment records whose
   boolean fields record whether each call succeeds, mirroring the exact null
   and status checks performed by the source. Mutex locks are modelled as
   always succeeding: the source ignores a poisoned lock by skipping the
   guarded block, and no model path poisons a lock. Floating point screen
   coordinates (f64 in the source) are modelled as rationals; the only
   arithmetic performed on them is the single subtraction
   y_top_left = screen_height - y_bottom_left. -/

/- Constants from keystroke_monitor.rs. -/

def K_CG_EVENT_KEY_DOWN : Nat := 10

/- Virtual keycode of the "/" key on macOS, the configured trigger. -/
def VK_SLASH : Int := 0x2C

/- TextFieldBounds from text_field_detector.rs: geometry payload in
   top-left-origin screen coordinates. -/
structure TextFieldBounds where
  x : ℚ
  y : ℚ
  width : ℚ
  height : ℚ
  deriving DecidableEq, Repr

/- Environment of one detector query. Each boolean records the outcome of one
   platform call made by text_field_detector.rs:
   systemWideOk: AXUIElementCreateSystemWide returned non-null;
   axFocusedOk: AXUIElementCopyAttributeValue for AXFocusedUIElement returned
     status 0; focusedNonNull: the copied focused element reference is
     non-null; axValueOk: AXUIElementCopyAttributeValue for AXValue on the
     focused element returned status 0;
   nsEventClassOk / nsScreenClassOk: the Class lookups for NSEvent and
     NSScreen succeeded;
   mouseX, mouseY: NSEvent mouseLocation in bottom-left-origin coordinates;
   screenHeight: height of the main screen frame. -/
structure DetectorEnv where
  systemWideOk : Bool
  axFocusedOk : Bool
  focusedNonNull : Bool
  axValueOk : Bool
  nsEventClassOk : Bool
  nsScreenClassOk : Bool
  mouseX : ℚ
  mouseY : ℚ
  screenHeight : ℚ
  deriving Repr

/- is_text_field_focused from text_field_detector.rs lines 48-87: false when
   the system-wide element is null; otherwise focused iff the focus query
   returned 0 with a non-null element, and then text-input iff the AXValue
   copy returned 0. All failures collapse to false. -/
def is_text_field_focused (env : DetectorEnv) : Bool :=
  if !env.systemWideOk then
    false
  else
    let is_focused := env.axFocusedOk && env.focusedNonNull
    if is_focused then env.axValueOk else false

/- get_cursor_position from text_field_detector.rs lines 91-115: errors when
   the NSEvent or NSScreen class lookup fails; otherwise converts the pointer
   position from bottom-left origin to top-left origin and returns zero width
   and height. -/
def get_cursor_position (env : DetectorEnv) : Except String TextFieldBounds :=
  if !env.nsEventClassOk then
    Except.error "Failed to get NSEvent class"
  else if !env.nsScreenClassOk then
    Except.error "Failed to get NSScreen class"
  else
    Except.ok
      { x := env.mouseX
        y := env.screenHeight - env.mouseY
        width := 0
        height := 0 }

/- get_focused_text_field_bounds from text_field_detector.rs lines 119-127:
   the boolean focus check first; on true the cursor query; on false a
   distinguished error. -/
def get_focused_text_field_bounds (env : DetectorEnv) : Except String TextFieldBounds :=
  if is_text_field_focused env then
    get_cursor_position env
  else
    Except.error "No focused text field"

/- Observable outcome of one invocation of the tap callback. returnedEvent is
   the CGEventRef handed back to the OS: some event is pass-through of the
   incoming event, none is the null sentinel that suppresses the keystroke.
   emitted lists the payloads of trigger-detected notifications sent during
   the invocation. -/
structure TapResult where
  returnedEvent : Option Nat
  emitted : List TextFieldBounds
  deriving DecidableEq, Repr

/- event_tap_callback from keystroke_monitor.rs lines 78-153. appHandle is
   whether the APP_HANDLE slot currently holds a sink (Some) or not (None).
   On a key-down of the trigger keycode with a successful bounds query and a
   registered sink, the callback emits one trigger-detected notification with
   the bounds payload and returns null; the overlay positioning, show and
   focus calls that follow the emit have their results discarded by the
   source and do not affect the returned value or the emissions, so they are
   not modelled. Every other path returns the incoming event unchanged with
   no emission. -/
def event_tap_callback (eventType : Nat) (keycode : Int) (event : Nat)
    (env : DetectorEnv) (appHandle : Bool) : TapResult :=
  if eventType = K_CG_EVENT_KEY_DOWN then
    if keycode = VK_SLASH then
      match get_focused_text_field_bounds env with
      | Except.ok bounds =>
          if appHandle then
            { returnedEvent := none, emitted := [bounds] }
          else
            { returnedEvent := some event, emitted := [] }
      | Except.error _ =>
          { returnedEvent := some event, emitted := [] }
    else
      { returnedEvent := some event, emitted := [] }
  else
    { returnedEvent := some event, emitted := [] }

/- Process-wide monitor state. eventTapRef models the EVENT_TAP_REF slot
   (the tap address stored as usize), appHandle models whether APP_HANDLE
   holds a sink, liveTaps lists the addresses of taps that have been created
   and enabled and not yet disabled, and nextTap generates fresh tap
   addresses. -/
structure MonitorState where
  eventTapRef : Option Nat
  appHandle : Bool
  liveTaps : List Nat
  nextTap : Nat
  deriving DecidableEq, Repr

def initialState : MonitorState :=
  { eventTapRef := none, appHandle := false, liveTaps := [], nextTap := 0 }

/- start_monitoring from keystroke_monitor.rs lines 155-212. The function
   stores the app handle, spawns a background thread and returns Ok
   unconditionally; the thread calls CGEventTapCreate and, on success, stores
   the tap address in EVENT_TAP_REF (overwriting any previous value) and
   enables the tap, while on failure it logs and returns without touching
   EVENT_TAP_REF. The model folds the work of the spawned thread up to its
   run loop entry into one transition; tapCreationOk is the outcome of
   CGEventTapCreate. In both cases the Rust caller receives Ok. -/
def start_monitoring (tapCreationOk : Bool) (s : MonitorState) :
    MonitorState × Except String Unit :=
  let s1 : MonitorState := { s with appHandle := true }
  if tapCreationOk then
    let tap := s1.nextTap
    ({ s1 with
        eventTapRef := some tap
        liveTaps := tap :: s1.liveTaps
        nextTap := s1.nextTap + 1 },
     Except.ok ())
  else
    (s1, Except.ok ())

/- stop_monitoring from keystroke_monitor.rs lines 220-237: takes the stored
   tap address out of EVENT_TAP_REF and disables that tap if one was stored,
   then clears APP_HANDLE, and returns Ok unconditionally. -/
def stop_monitoring (s : MonitorState) : MonitorState × Except String Unit :=
  match s.eventTapRef with
  | some tapAddr =>
      ({ s with
          eventTapRef := none
          liveTaps := s.liveTaps.erase tapAddr
          appHandle := false },
       Except.ok ())
  | none =>
      ({ s with appHandle := false }, Except.ok ())

/- Environment of one insert_text_via_paste call. Each boolean records the
   outcome of one platform call made by text_injector.rs: setStringOk is the
   boolean returned by the pasteboard setString call, eventSourceOk is
   whether CGEventSource creation succeeded, keyDownOk and keyUpOk are
   whether the two synthetic keyboard events were created. -/
structure ClipboardEnv where
  setStringOk : Bool
  eventSourceOk : Bool
  keyDownOk : Bool
  keyUpOk : Bool
  deriving Repr

/- Observable outcome of insert_text_via_paste: the returned result, the
   clipboard content at the moment of return (none when the pasteboard holds
   no string content), and the scheduled restore task carrying its snapshot
   when one was spawned. -/
structure PasteOutcome where
  result : Except String Unit
  clipboard : Option String
  restoreTask : Option (Option String)
  deriving Repr

/- get_clipboard_string from text_injector.rs lines 136-165: the chain of
   null checks (types list, available string type, string value, UTF8 bytes)
   all collapse to the absence value none; otherwise the text content is
   returned. With the clipboard modelled as an optional string, the function
   is the identity on that state. -/
def get_clipboard_string (clipboard : Option String) : Option String :=
  clipboard

/- insert_text_via_paste from text_injector.rs lines 67-133: snapshot the
   clipboard, clear it, write the new text (error if the pasteboard refuses),
   create the event source and the two synthetic key events (error on any
   failure), post them, then spawn the delayed restore task carrying the
   snapshot and return Ok. On the write-refused path the clipboard has been
   cleared; on the later error paths it holds the new text; the restore task
   is spawned only on the success path. -/
def insert_text_via_paste (text : String) (clipboard : Option String)
    (env : ClipboardEnv) : PasteOutcome :=
  let saved_contents := get_clipboard_string clipboard
  if !env.setStringOk then
    { result := Except.error "Failed to set clipboard content"
      clipboard := none
      restoreTask := none }
  else if !env.eventSourceOk then
    { result := Except.error "Failed to create event source"
      clipboard := some text
      restoreTask := none }
  else if !env.keyDownOk then
    { result := Except.error "Failed to create key down event"
      clipboard := some text
      restoreTask := none }
  else if !env.keyUpOk then
    { result := Except.error "Failed to create key up event"
      clipboard := some text
      restoreTask := none }
  else
    { result := Except.ok ()
      clipboard := some text
      restoreTask := some saved_contents }

/- The body of the spawned restore closure in text_injector.rs lines 112-129:
   clear the clipboard, then rewrite the snapshot text only when the snapshot
   held some text, leaving the clipboard cleared when it held none. The
   result is the clipboard content observed after the restore delay. -/
def run_restore (snapshot : Option String) : Option String :=
  match snapshot with
  | some original_content => some original_content
  | none => none

/- Concrete environments used by the witnesses. -/

/- Detector environment of the spec scenario: an eligible text field focused,
   pointer at (100, 200) bottom-left origin on an 800-tall primary display. -/
def demoEnv : DetectorEnv :=
  { systemWideOk := true
    axFocusedOk := true
    focusedNonNull := true
    axValueOk := true
    nsEventClassOk := true
    nsScreenClassOk := true
    mouseX := 100
    mouseY := 200
    screenHeight := 800 }

/- Detector environment with no focused element. -/
def noFocusEnv : DetectorEnv :=
  { systemWideOk := true
    axFocusedOk := false
    focusedNonNull := false
    axValueOk := false
    nsEventClassOk := true
    nsScreenClassOk := true
    mouseX := 0
    mouseY := 0
    screenHeight := 0 }

def allOkClipboardEnv : ClipboardEnv :=
  { setStringOk := true, eventSourceOk := true, keyDownOk := true, keyUpOk := true }

def writeRefusedEnv : ClipboardEnv :=
  { setStringOk := false, eventSourceOk := true, keyDownOk := true, keyUpOk := true }

/- Helper: a successful cursor query returns exactly the converted pointer
   position with zero width and height. -/
theorem get_cursor_position_ok (env : DetectorEnv) (b : TextFieldBounds)
    (h : get_cursor_position env = Except.ok b) :
    b = { x := env.mouseX, y := env.screenHeight - env.mouseY, width := 0, height := 0 } := by
  unfold get_cursor_position at h
  cases h1 : env.nsEventClassOk <;> simp [h1] at h
  cases h2 : env.nsScreenClassOk <;> simp [h2] at h
  exact h.symm

/-- Claim C1: for a key-down event with the trigger keycode, when the bounds
query succeeds and the sink is registered (Monitoring), the tap callback
suppresses the event by returning the null sentinel, emits exactly one
trigger-detected notification, and the payload equals the pointer position
converted from bottom-left to top-left origin with zero width and height. -/
theorem trigger_keydown_suppresses_and_notifies (env : DetectorEnv) (event : Nat)
    (b : TextFieldBounds) (h : get_focused_text_field_bounds env = Except.ok b) :
    event_tap_callback K_CG_EVENT_KEY_DOWN VK_SLASH event env true =
      { returnedEvent := none, emitted := [b] } ∧
    b = { x := env.mouseX, y := env.screenHeight - env.mouseY, width := 0, height := 0 } := by
  constructor
  · simp [event_tap_callback, h]
  · unfold get_focused_text_field_bounds at h
    cases h1 : is_text_field_focused env <;> simp [h1] at h
    exact get_cursor_position_ok env b h

/-- Witness for C1: the spec scenario, pointer at (100, 200) on an 800-tall
display with a focused text field, yields suppression and the single payload
(100, 600, 0, 0). -/
theorem trigger_keydown_suppresses_and_notifies_witness :
    event_tap_callback K_CG_EVENT_KEY_DOWN VK_SLASH 7 demoEnv true =
      { returnedEvent := none
        emitted := [{ x := 100, y := 600, width := 0, height := 0 }] } :=
  (trigger_keydown_suppresses_and_notifies demoEnv 7
      { x := 100, y := 600, width := 0, height := 0 }
      (by norm_num [get_focused_text_field_bounds, is_text_field_focused,
        get_cursor_position, demoEnv])).1

/-- Claim C2 counterexample: when CGEventTapCreate is denied, start_monitoring
still returns Ok to its caller (not an error) and the notification-sink slot
remains registered, contradicting the claim that it reports failure and
leaves no sink registered. -/
theorem start_denied_counterexample :
    (start_monitoring false initialState).2 = Except.ok () ∧
    (start_monitoring false initialState).1.appHandle = true :=
  ⟨rfl, rfl⟩

/-- Claim C2 amended: when CGEventTapCreate is denied, the process does not
crash and no tap handle is stored (the tap slot and the set of live taps are
unchanged); but because tap creation runs on a spawned background thread
after start_monitoring has already returned, start_monitoring returns Ok
rather than an error, and the notification-sink reference, registered before
the thread was spawned, remains registered. -/
theorem start_denied_no_tap_but_ok_and_sink_kept (s : MonitorState) :
    (start_monitoring false s).2 = Except.ok () ∧
    (start_monitoring false s).1.eventTapRef = s.eventTapRef ∧
    (start_monitoring false s).1.liveTaps = s.liveTaps ∧
    (start_monitoring false s).1.appHandle = true := by
  simp [start_monitoring]

/-- Witness for the amended C2: from the initial state, a denied tap creation
leaves the tap slot empty and no live tap, yet returns Ok with the sink
registered. -/
theorem start_denied_no_tap_but_ok_and_sink_kept_witness :
    (start_monitoring false initialState).2 = Except.ok () ∧
    (start_monitoring false initialState).1.eventTapRef = none ∧
    (start_monitoring false initialState).1.liveTaps = [] ∧
    (start_monitoring false initialState).1.appHandle = true :=
  start_denied_no_tap_but_ok_and_sink_kept initialState

/-- Claim C3 (code bug demonstration): two successful start_monitoring calls
with no intervening stop leave two live enabled taps while the slot stores
only the second; the first tap (address 0) is still live but no longer
reachable from the slot, violating the at-most-one-live-handle invariant. -/
theorem double_start_two_live_taps :
    (start_monitoring true (start_monitoring true initialState).1).1.liveTaps = [1, 0] ∧
    (start_monitoring true (start_monitoring true initialState).1).1.eventTapRef = some 1 :=
  ⟨rfl, rfl⟩

/-- Claim C4: for every key event whose keycode differs from the trigger
keycode, in every tap state, the callback returns the event unchanged and
emits nothing. -/
theorem non_trigger_passthrough (eventType : Nat) (keycode : Int) (event : Nat)
    (env : DetectorEnv) (appHandle : Bool) (h : keycode ≠ VK_SLASH) :
    event_tap_callback eventType keycode event env appHandle =
      { returnedEvent := some event, emitted := [] } := by
  unfold event_tap_callback
  by_cases h1 : eventType = K_CG_EVENT_KEY_DOWN <;> simp [h1, h]

/-- Witness for C4: keycode 0 (the letter A key) passes through unchanged
with no emission, even while monitoring with a focused field. -/
theorem non_trigger_passthrough_witness :
    event_tap_callback K_CG_EVENT_KEY_DOWN 0 7 demoEnv true =
      { returnedEvent := some 7, emitted := [] } :=
  non_trigger_passthrough K_CG_EVENT_KEY_DOWN 0 7 demoEnv true (by decide)

/-- Claim C5: for a key-down event with the trigger keycode, when the
composed bounds query fails, the callback returns the original event
unchanged and emits no notification, in every sink state. -/
theorem trigger_without_field_passthrough (event : Nat) (env : DetectorEnv)
    (appHandle : Bool) (e : String)
    (h : get_focused_text_field_bounds env = Except.error e) :
    event_tap_callback K_CG_EVENT_KEY_DOWN VK_SLASH event env appHandle =
      { returnedEvent := some event, emitted := [] } := by
  simp [event_tap_callback, h]

/-- Witness for C5: the trigger key with no focused element passes through
with no emission. -/
theorem trigger_without_field_passthrough_witness :
    event_tap_callback K_CG_EVENT_KEY_DOWN VK_SLASH 7 noFocusEnv true =
      { returnedEvent := some 7, emitted := [] } :=
  trigger_without_field_passthrough 7 noFocusEnv true "No focused text field" rfl

/-- Claim C6: when insert_text_via_paste succeeds, the scheduled restore task
carries exactly the pre-call clipboard snapshot, and running the restore
yields exactly the pre-call clipboard content: the original text when some
was present, the cleared clipboard when none was, with the absent state kept
distinct from the empty string by the optional snapshot. -/
theorem paste_restores_clipboard (text : String) (clipboard : Option String)
    (env : ClipboardEnv)
    (h : (insert_text_via_paste text clipboard env).result = Except.ok ()) :
    (insert_text_via_paste text clipboard env).restoreTask = some clipboard ∧
    run_restore clipboard = clipboard := by
  constructor
  · unfold insert_text_via_paste at h ⊢
    cases h1 : env.setStringOk <;> cases h2 : env.eventSourceOk <;>
      cases h3 : env.keyDownOk <;> cases h4 : env.keyUpOk <;>
      simp [h1, h2, h3, h4, get_clipboard_string] at h ⊢
  · cases clipboard <;> rfl

/-- Witness for C6: the spec scenario, injecting hello over prior clipboard
content old, schedules a restore carrying old and the restore yields old. -/
theorem paste_restores_clipboard_witness :
    (insert_text_via_paste "hello" (some "old") allOkClipboardEnv).restoreTask =
      some (some "old") ∧
    run_restore (some "old") = some "old" :=
  paste_restores_clipboard "hello" (some "old") allOkClipboardEnv rfl

/-- Claim C7: when insert_text_via_paste returns an error after the snapshot
was taken, no restore task has been scheduled and the clipboard at the point
of return is already cleared or holds the new text, so the original content
is not restored on any error path. -/
theorem paste_error_no_restore (text : String) (clipboard : Option String)
    (env : ClipboardEnv) (e : String)
    (h : (insert_text_via_paste text clipboard env).result = Except.error e) :
    (insert_text_via_paste text clipboard env).restoreTask = none ∧
    ((insert_text_via_paste text clipboard env).clipboard = none ∨
      (insert_text_via_paste text clipboard env).clipboard = some text) := by
  unfold insert_text_via_paste at h ⊢
  cases h1 : env.setStringOk <;> cases h2 : env.eventSourceOk <;>
    cases h3 : env.keyDownOk <;> cases h4 : env.keyUpOk <;>
    simp [h1, h2, h3, h4] at h ⊢

/-- Witness for C7: a refused clipboard write leaves the clipboard cleared or
overwritten and schedules no restore. -/
theorem paste_error_no_restore_witness :
    (insert_text_via_paste "hello" (some "old") writeRefusedEnv).restoreTask = none ∧
    ((insert_text_via_paste "hello" (some "old") writeRefusedEnv).clipboard = none ∨
      (insert_text_via_paste "hello" (some "old") writeRefusedEnv).clipboard =
        some "hello") :=
  paste_error_no_restore "hello" (some "old") writeRefusedEnv
    "Failed to set clipboard content" rfl

/-- Claim C8: after stop_monitoring, the sink slot is cleared, and any
further invocation of the tap callback, for every event type, keycode and
focus environment, returns the event unchanged and emits nothing. -/
theorem after_stop_callback_noop (s : MonitorState) (eventType : Nat)
    (keycode : Int) (event : Nat) (env : DetectorEnv) :
    event_tap_callback eventType keycode event env
        ((stop_monitoring s).1.appHandle) =
      { returnedEvent := some event, emitted := [] } := by
  have hA : (stop_monitoring s).1.appHandle = false := by
    unfold stop_monitoring
    cases s.eventTapRef <;> rfl
  rw [hA]
  unfold event_tap_callback
  by_cases h1 : eventType = K_CG_EVENT_KEY_DOWN
  · by_cases h2 : keycode = VK_SLASH
    · simp [h1, h2]
      cases h3 : get_focused_text_field_bounds env <;> simp [h3]
    · simp [h1, h2]
  · simp [h1]

/-- Witness for C8: after stopping from the initial state, even the trigger
key with a focused field passes through with no emission. -/
theorem after_stop_callback_noop_witness :
    event_tap_callback K_CG_EVENT_KEY_DOWN VK_SLASH 7 demoEnv
        ((stop_monitoring initialState).1.appHandle) =
      { returnedEvent := some 7, emitted := [] } :=
  after_stop_callback_noop initialState K_CG_EVENT_KEY_DOWN VK_SLASH 7 demoEnv

/-- Claim C9: stop_monitoring returns Ok, and calling it again immediately
returns Ok and leaves the state exactly as after the first call, so the
second call is a no-op and the two-call state equals the one-call state. -/
theorem stop_monitoring_idempotent (s : MonitorState) :
    (stop_monitoring s).2 = Except.ok () ∧
    stop_monitoring (stop_monitoring s).1 = ((stop_monitoring s).1, Except.ok ()) := by
  obtain ⟨tapRef, appH, live, nxt⟩ := s
  cases tapRef <;> simp [stop_monitoring]

/-- Witness for C9: two consecutive stops from the initial state both return
Ok and agree on the resulting state. -/
theorem stop_monitoring_idempotent_witness :
    (stop_monitoring initialState).2 = Except.ok () ∧
    stop_monitoring (stop_monitoring initialState).1 =
      ((stop_monitoring initialState).1, Except.ok ()) :=
  stop_monitoring_idempotent initialState

/-- Claim C10: get_focused_text_field_bounds performs the boolean focus check
first, returning the distinguished no-focused-field error whenever that check
is false (independently of the cursor environment), delegates to the cursor
query exactly when the check is true, and every error the cursor query can
produce differs from the no-focused-field error, so callers can tell the two
apart. -/
theorem bounds_composition_error_kinds (env : DetectorEnv) :
    (is_text_field_focused env = false →
      get_focused_text_field_bounds env = Except.error "No focused text field") ∧
    (is_text_field_focused env = true →
      get_focused_text_field_bounds env = get_cursor_position env) ∧
    (∀ e : String, get_cursor_position env = Except.error e →
      e ≠ "No focused text field") := by
  refine ⟨fun h => ?_, fun h => ?_, fun e h => ?_⟩
  · simp [get_focused_text_field_bounds, h]
  · simp [get_focused_text_field_bounds, h]
  · intro hc
    subst hc
    unfold get_cursor_position at h
    cases h1 : env.nsEventClassOk <;> cases h2 : env.nsScreenClassOk <;>
      simp [h1, h2] at h

/-- Witness for C10: with no focused element the composed query returns the
distinguished no-focused-field error. -/
theorem bounds_composition_error_kinds_witness :
    get_focused_text_field_bounds noFocusEnv = Except.error "No focused text field" :=
  (bounds_composition_error_kinds noFocusEnv).1 rfl
